import Mathlib

/-!
# Shallow embedding of the `document_processor` extraction pipeline

This file models the asynchronous PDF text-extraction pipeline of the
repository:

* `src/backend/app/services/pdf_service.py` — the dual-strategy extraction
  selector `PDFService.extract_text_from_pdf` and its two extractor wrappers;
* `src/backend/app/celery_worker.py` — the Celery task
  `extract_pdf_text_task`, its failure handler and retry policy;
* `src/backend/app/models/__init__.py` — the `Document` and `ProcessingTask`
  records (including the `unique=True` constraint on
  `ProcessingTask.task_id`);
* `src/backend/app/routers/documents.py` — the `get_document_text` endpoint.

External effects are made explicit:

* the filesystem and the two PDF libraries (PyMuPDF / pdfplumber) appear as
  an abstract environment `PdfEnv` of behaviours — the Python wrappers
  `_extract_with_pymupdf` / `_extract_with_pdfplumber` catch every exception
  of the library call, which we model by the library behaviour returning
  `Except`;
* the database session appears as an explicit `DB` value; `db.commit()`
  points in the source become state updates, and the single effect that can
  fail deterministically — inserting a second `ProcessingTask` with the same
  `task_id`, which violates the `unique=True` column constraint — is modelled
  by an explicit uniqueness check whose violation raises an integrity error;
* Celery's retry machinery: `self.request.id` is the same string across all
  retries of one logical task and `self.request.retries` counts previous
  retries, so the single-execution function takes both as parameters and
  `retryChain` iterates executions the way the broker redelivers them.

Python strings are modelled as `String`, `len` as `String.length`,
`str.strip()` as `String.trim`, the `in` substring test as `strContains`,
and f-string interpolation of an `int` as `toString : Nat → String`
(both render a nonnegative integer as its decimal digits).
-/

/-- Result dictionary produced by `PDFService.extract_text_from_pdf`
(keys `text`, `text_length`, `page_count`, `method`). -/
structure ExtractResult where
  text : String
  text_length : Nat
  page_count : Nat
  method : String
deriving Repr, DecidableEq

/-- Abstract behaviour of the process environment seen by
`pdf_service.py`: whether `os.path.exists` holds for a path, and what the
body of each library call (`fitz.open ...` loop, `pdfplumber.open ...` loop)
does on a path — return text and page count, or raise. -/
structure PdfEnv where
  pathExists : String → Bool
  pymupdf : String → Except String (String × Nat)
  pdfplumber : String → Except String (String × Nat)

/-- Model of `PDFService._extract_with_pymupdf`: runs the PyMuPDF extraction body and
converts any exception into the empty result `("", 0)`. -/
def extract_with_pymupdf (env : PdfEnv) (file_path : String) : String × Nat :=
  match env.pymupdf file_path with
  | .ok r => r
  | .error _ => ("", 0)

/-- Model of `PDFService._extract_with_pdfplumber`: runs the pdfplumber extraction
body and converts any exception into the empty result `("", 0)`. -/
def extract_with_pdfplumber (env : PdfEnv) (file_path : String) : String × Nat :=
  match env.pdfplumber file_path with
  | .ok r => r
  | .error _ => ("", 0)

/-- Model of `PDFService.extract_text_from_pdf`: raises `FileNotFoundError` when the
path does not exist; otherwise runs PyMuPDF, short-circuits when the trimmed
text is longer than 100 characters, else also runs pdfplumber and returns
the strictly longer text (ties keep the PyMuPDF result). -/
def extract_text_from_pdf (env : PdfEnv) (file_path : String) :
    Except String ExtractResult :=
  if env.pathExists file_path = false then
    .error ("PDF文件不存在: " ++ file_path)
  else
    let a := extract_with_pymupdf env file_path
    if a.1.trim.length > 100 then
      .ok ⟨a.1, a.1.length, a.2, "pymupdf"⟩
    else
      let b := extract_with_pdfplumber env file_path
      if b.1.length > a.1.length then
        .ok ⟨b.1, b.1.length, b.2, "pdfplumber"⟩
      else
        .ok ⟨a.1, a.1.length, a.2, "pymupdf"⟩

/-- Test whether the list `n` is an initial segment of `h`. -/
def isPre : List Char → List Char → Bool
  | [], _ => true
  | _ :: _, [] => false
  | a :: as, b :: bs => a == b && isPre as bs

/-- Test whether the list `n` occurs contiguously inside `h`. -/
def hasSub : List Char → List Char → Bool
  | [], needle => isPre needle []
  | a :: t, needle => isPre needle (a :: t) || hasSub t needle

/-- Python's substring test `needle in hay`. -/
def strContains (hay needle : String) : Bool :=
  hasSub hay.toList needle.toList

/-- The permanent-failure classification of `extract_pdf_text_task`
(`celery_worker.py` line 120): an error is not retried exactly when its
message contains `"文件不存在"` or `"无法读取"`. -/
def isPermanentError (msg : String) : Bool :=
  strContains msg "文件不存在" || strContains msg "无法读取"

/-- The `documents` table row (`models/__init__.py`), restricted to the
columns the pipeline reads or writes. -/
structure Document where
  id : Nat
  file_path : String
  extracted_text : Option String := none
  text_length : Nat := 0
  page_count : Nat := 1
  extraction_status : String := "pending"
  extraction_error : Option String := none
deriving Repr, DecidableEq

/-- The JSON `result` payload stored on a successful `ProcessingTask`. -/
structure TaskResult where
  text_length : Nat
  page_count : Nat
  extraction_method : String
deriving Repr, DecidableEq

/-- The `processing_tasks` table row (`models/__init__.py`); `task_id`
carries the Celery task id and is declared `unique=True`. -/
structure ProcessingTask where
  task_id : String
  task_type : String
  status : String := "pending"
  document_id : Nat
  result : Option TaskResult := none
  error_message : Option String := none
deriving Repr, DecidableEq

/-- The database state: the two tables, rows in insertion order. -/
structure DB where
  docs : List Document
  tasks : List ProcessingTask
deriving Repr, DecidableEq

/-- Model of `db.query(Document).filter(Document.id == document_id).first()`. -/
def findDoc (db : DB) (document_id : Nat) : Option Document :=
  db.docs.find? (fun d => d.id == document_id)

/-- Model of `db.query(ProcessingTask).filter(ProcessingTask.task_id == tid).first()`. -/
def findTask (db : DB) (tid : String) : Option ProcessingTask :=
  db.tasks.find? (fun t => t.task_id == tid)

/-- Mutating the ORM object returned by `.first()` and committing: the first
row with the given id is replaced by its update. -/
def updateFirstDoc : List Document → Nat → (Document → Document) → List Document
  | [], _, _ => []
  | d :: ds, document_id, f =>
    if d.id == document_id then f d :: ds
    else d :: updateFirstDoc ds document_id f

/-- Mutating the ORM `ProcessingTask` returned by `.first()` and committing. -/
def updateFirstTask : List ProcessingTask → String → (ProcessingTask → ProcessingTask) →
    List ProcessingTask
  | [], _, _ => []
  | t :: ts, tid, f =>
    if t.task_id == tid then f t :: ts
    else t :: updateFirstTask ts tid f

def updateDoc (db : DB) (document_id : Nat) (f : Document → Document) : DB :=
  { db with docs := updateFirstDoc db.docs document_id f }

def updateTask (db : DB) (tid : String) (f : ProcessingTask → ProcessingTask) : DB :=
  { db with tasks := updateFirstTask db.tasks tid f }

/-- Does some row already hold this Celery task id?  Committing a second
insert with the same `task_id` violates the `unique=True` constraint. -/
def hasTaskId (db : DB) (tid : String) : Bool :=
  db.tasks.any (fun t => t.task_id == tid)

/-- What one execution of the Celery task reports back to the broker:
a return value, a `self.retry` with a countdown, or a final exception. -/
inductive Outcome where
  | success (document_id text_length page_count : Nat)
  | retry (delay : Nat) (msg : String)
  | fail (msg : String)
deriving Repr, DecidableEq

/-- The `except Exception` handler of `extract_pdf_text_task`
(`celery_worker.py` lines 97–131): after rollback it marks the document
`failed` with the error message, marks the task row `failure`, then either
re-raises without retrying (permanent message patterns), retries with
`countdown = 60 * (retries + 1)` while `retries < 3`, or re-raises. -/
def taskFailureHandler (tid : String) (retries : Nat) (document_id : Nat)
    (db : DB) (e : String) : DB × Outcome :=
  let db1 :=
    match findDoc db document_id with
    | some _ => updateDoc db document_id (fun d =>
        { d with extraction_status := "failed", extraction_error := some e })
    | none => db
  let db2 :=
    match findTask db1 tid with
    | some _ => updateTask db1 tid (fun t =>
        { t with status := "failure", error_message := some e })
    | none => db1
  if isPermanentError e then (db2, .fail e)
  else if retries < 3 then (db2, .retry (60 * (retries + 1)) e)
  else (db2, .fail e)

/-- One execution of the Celery task `extract_pdf_text_task`
(`celery_worker.py` lines 30–134).  Parameters: the behaviour of
`pdf_service.extract_text_from_pdf` on a path, the message of the
database's integrity error for a duplicate `task_id` insert (`iMsg`,
driver-specific text), the Celery task id `tid` (`self.request.id`,
identical across retries), the retry counter (`self.request.retries`), the
target `document_id` and the database state.

The body inserts a fresh `ProcessingTask` (status `processing`) and commits
— which raises the integrity error when a row with the same `task_id`
already exists (any retried execution); then loads the document (raising
`文档 {id} 不存在` when absent), marks it `processing`, runs the extraction,
and on success commits the document's text fields (status `completed`)
together with the task's `success` status and result payload. -/
def extract_pdf_text_task (extractFn : String → Except String ExtractResult)
    (iMsg tid : String) (retries : Nat) (document_id : Nat) (db : DB) :
    DB × Outcome :=
  if hasTaskId db tid then
    taskFailureHandler tid retries document_id db iMsg
  else
    let db1 : DB := { db with tasks := db.tasks ++
      [{ task_id := tid, task_type := "pdf_extraction",
         status := "processing", document_id := document_id }] }
    match findDoc db1 document_id with
    | none =>
      taskFailureHandler tid retries document_id db1
        ("文档 " ++ toString document_id ++ " 不存在")
    | some document =>
      let db2 := updateDoc db1 document_id (fun d =>
        { d with extraction_status := "processing" })
      match extractFn document.file_path with
      | .error e => taskFailureHandler tid retries document_id db2 e
      | .ok result =>
        let db3 := updateDoc db2 document_id (fun d =>
          { d with extracted_text := some result.text,
                   text_length := result.text_length,
                   page_count := result.page_count,
                   extraction_status := "completed" })
        let db4 := updateTask db3 tid (fun t =>
          { t with status := "success",
                   result := some ⟨result.text_length, result.page_count,
                                   result.method⟩ })
        (db4, .success document_id result.text_length result.page_count)

/-- Terminal outcome of a whole retry chain. -/
inductive Final where
  | ok
  | err (msg : String)
  | outOfFuel
deriving Repr, DecidableEq

/-- The broker's view of one logical extraction: execute the task; on a
retry outcome, redeliver the same task id with the retry counter
incremented after the recorded countdown.  Returns the final database
state, the list of recorded countdowns (one per requeue, so the number of
executions is one more than its length) and the terminal outcome.  `fuel`
only bounds the recursion; the task itself stops retrying at
`retries = 3`. -/
def retryChain (extractFn : String → Except String ExtractResult)
    (iMsg tid : String) (document_id : Nat) :
    Nat → Nat → DB → DB × List Nat × Final
  | 0, _, db => (db, [], .outOfFuel)
  | fuel + 1, retries, db =>
    match extract_pdf_text_task extractFn iMsg tid retries document_id db with
    | (db1, .success _ _ _) => (db1, [], .ok)
    | (db1, .fail m) => (db1, [], .err m)
    | (db1, .retry d _) =>
      let r := retryChain extractFn iMsg tid document_id fuel (retries + 1) db1
      (r.1, d :: r.2.1, r.2.2)

/-- The latest `ProcessingTask` row referencing a document (rows are kept in
insertion order). -/
def latestTaskFor (db : DB) (document_id : Nat) : Option ProcessingTask :=
  (db.tasks.filter (fun t => t.document_id == document_id)).getLast?

/-- Python's f-string rendering of an `Optional[str]`. -/
def pyStrOfOpt : Option String → String
  | some s => s
  | none => "None"

/-- An HTTP error response raised by a router. -/
structure HTTPException where
  status_code : Nat
  detail : String
deriving Repr, DecidableEq

/-- Successful payload of `GET /documents/{id}/text`. -/
structure TextOut where
  document_id : Nat
  text : Option String
  text_length : Nat
  page_count : Nat
deriving Repr, DecidableEq

/-- Shape of a document row after the failure handler ran with message `e`. -/
def failedDoc (d : Document) (e : String) : Document :=
  { d with extraction_status := "failed", extraction_error := some e }

/-- Shape of the task row after the failure handler ran with message `e`
(starting from the freshly inserted `processing` row). -/
def failedTask (tid : String) (document_id : Nat) (e : String) : ProcessingTask :=
  { task_id := tid, task_type := "pdf_extraction", status := "failure",
    document_id := document_id, error_message := some e }

/-- The retry decision taken by the failure handler on message `e` at retry
counter `retries`. -/
def classifyOutcome (retries : Nat) (e : String) : Outcome :=
  if isPermanentError e then .fail e
  else if retries < 3 then .retry (60 * (retries + 1)) e
  else .fail e

/-- Shape of a document row after a successful extraction committed. -/
def completedDoc (d : Document) (res : ExtractResult) : Document :=
  { d with
      extracted_text := some res.text,
      text_length := res.text_length,
      page_count := res.page_count,
      extraction_status := "completed" }

/-- Shape of the task row after a successful extraction committed. -/
def successTask (tid : String) (document_id : Nat) (res : ExtractResult) :
    ProcessingTask :=
  { task_id := tid,
    task_type := "pdf_extraction",
    status := "success",
    document_id := document_id,
    result := some ⟨res.text_length, res.page_count, res.method⟩,
    error_message := none }

/-- The `get_document_text` endpoint (`routers/documents.py` lines 56–80):
404 when the document is missing, 425 while `pending` or `processing`,
500 carrying the stored extraction error while `failed`, the text payload
when `completed`, and a 500 "unknown status" fallback otherwise. -/
def get_document_text (db : DB) (document_id : Nat) :
    Except HTTPException TextOut :=
  match findDoc db document_id with
  | none => .error ⟨404, "文档不存在"⟩
  | some document =>
    if document.extraction_status = "pending" then
      .error ⟨425, "文本提取中，请稍后重试"⟩
    else if document.extraction_status = "processing" then
      .error ⟨425, "文本提取处理中"⟩
    else if document.extraction_status = "failed" then
      .error ⟨500, "文本提取失败: " ++ pyStrOfOpt document.extraction_error⟩
    else if document.extraction_status = "completed" then
      .ok ⟨document_id, document.extracted_text,
           document.text_length, document.page_count⟩
    else
      .error ⟨500, "未知状态"⟩


/-- Agreement of the document row and the latest task row after a full
retry chain reaches a terminal outcome (the property of claim C2). -/
def terminalAgreement (f : String → Except String ExtractResult)
    (iMsg tid : String) (did : Nat) (d : Document) (fuel : Nat) : Prop :=
  ((retryChain f iMsg tid did fuel 0 ⟨[d], []⟩).2.2 = .ok →
    ∃ res, f d.file_path = .ok res ∧
      findDoc (retryChain f iMsg tid did fuel 0 ⟨[d], []⟩).1 did =
        some (completedDoc d res) ∧
      latestTaskFor (retryChain f iMsg tid did fuel 0 ⟨[d], []⟩).1 did =
        some (successTask tid did res)) ∧
  (∀ m, (retryChain f iMsg tid did fuel 0 ⟨[d], []⟩).2.2 = .err m →
    findDoc (retryChain f iMsg tid did fuel 0 ⟨[d], []⟩).1 did =
      some (failedDoc d m) ∧
    latestTaskFor (retryChain f iMsg tid did fuel 0 ⟨[d], []⟩).1 did =
      some (failedTask tid did m)) ∧
  (retryChain f iMsg tid did fuel 0 ⟨[d], []⟩).2.2 ≠ .outOfFuel

/-- The selection algorithm of `extract_text_from_pdf` (claim C5): primary
first, short-circuit above the quality threshold (then the secondary
behaviour is irrelevant), otherwise the strictly longer text wins and ties
keep the primary. -/
def selectorSpec (env : PdfEnv) (p : String) : Prop :=
  (100 < (extract_with_pymupdf env p).1.trim.length →
    extract_text_from_pdf env p =
      .ok ⟨(extract_with_pymupdf env p).1, (extract_with_pymupdf env p).1.length,
           (extract_with_pymupdf env p).2, "pymupdf"⟩ ∧
    ∀ g, extract_text_from_pdf { env with pdfplumber := g } p =
          extract_text_from_pdf env p) ∧
  ((extract_with_pymupdf env p).1.trim.length ≤ 100 →
    extract_text_from_pdf env p =
      if (extract_with_pymupdf env p).1.length < (extract_with_pdfplumber env p).1.length
      then .ok ⟨(extract_with_pdfplumber env p).1,
                (extract_with_pdfplumber env p).1.length,
                (extract_with_pdfplumber env p).2, "pdfplumber"⟩
      else .ok ⟨(extract_with_pymupdf env p).1,
                (extract_with_pymupdf env p).1.length,
                (extract_with_pymupdf env p).2, "pymupdf"⟩)

/-- Totality of the selector (claim C7): a result on every existing path,
an error only for a missing path, and extractor exceptions converted to the
empty result. -/
def selectorTotal (env : PdfEnv) (p : String) : Prop :=
  (env.pathExists p = true → ∃ r, extract_text_from_pdf env p = .ok r) ∧
  (∀ e, extract_text_from_pdf env p = .error e →
    env.pathExists p = false ∧ e = "PDF文件不存在: " ++ p) ∧
  (∀ m, env.pymupdf p = .error m → extract_with_pymupdf env p = ("", 0)) ∧
  (∀ m, env.pdfplumber p = .error m → extract_with_pdfplumber env p = ("", 0))

/-- Claim C8's property: the selector returns `text_length = len(text)`,
and any completed document row after a chain stores matching text and
length. -/
def textLengthSpec (env : PdfEnv) (iMsg tid : String) (did : Nat)
    (d : Document) (fuel : Nat) : Prop :=
  (∀ r, extract_text_from_pdf env d.file_path = .ok r →
    r.text_length = r.text.length) ∧
  (∀ dd,
    findDoc (retryChain (extract_text_from_pdf env) iMsg tid did fuel 0
        ⟨[d], []⟩).1 did = some dd →
    dd.extraction_status = "completed" →
    ∃ s, dd.extracted_text = some s ∧ dd.text_length = s.length)

/-- Claim C9's property: the text read of a stored document fails 425
exactly while pending/processing, fails 500 with the stored error exactly
while failed, and returns the payload exactly while completed. -/
def readTextSpec (db : DB) (did : Nat) (d : Document) : Prop :=
  ((d.extraction_status = "pending" ∨ d.extraction_status = "processing") ↔
    ∃ err, get_document_text db did = .error err ∧ err.status_code = 425) ∧
  (d.extraction_status = "failed" ↔
    get_document_text db did =
      .error ⟨500, "文本提取失败: " ++ pyStrOfOpt d.extraction_error⟩) ∧
  (d.extraction_status = "completed" ↔
    get_document_text db did =
      .ok ⟨did, d.extracted_text, d.text_length, d.page_count⟩)

/-- A plausible driver text for the duplicate-`task_id` integrity error
(used in concrete scenarios; the theorems only assume it matches no
permanent-failure pattern). -/
def integMsg : String :=
  "(sqlite3.IntegrityError) UNIQUE constraint failed: processing_tasks.task_id"

/-- A concrete document row for scenarios. -/
def sampleDoc : Document := { id := 1, file_path := "/data/a.pdf" }

/-- An extraction behaviour that always raises a transient parse error. -/
def alwaysParseError : String → Except String ExtractResult :=
  fun _ => .error "解析失败"

/-- An environment whose source path never exists. -/
def envMissing : PdfEnv :=
  { pathExists := fun _ => false,
    pymupdf := fun _ => .error "no", pdfplumber := fun _ => .error "no" }

/-- An environment where the primary extractor yields little text and the
secondary yields more. -/
def envShort : PdfEnv :=
  { pathExists := fun _ => true,
    pymupdf := fun _ => .ok ("ab", 1), pdfplumber := fun _ => .ok ("abcd", 2) }

/-- A concrete completed document row. -/
def docCompleted : Document :=
  { id := 3, file_path := "/data/c.pdf", extracted_text := some "hello",
    text_length := 5, page_count := 2, extraction_status := "completed" }

/-! ## Helper lemmas -/

theorem string_toList_append (s t : String) :
    (s ++ t).toList = s.toList ++ t.toList := by
  cases s; cases t; rfl

theorem isPre_subset {n h : List Char} (hp : isPre n h = true) :
    ∀ c ∈ n, c ∈ h := by
  induction n generalizing h with
  | nil => intro c hc; cases hc
  | cons a as ih =>
    cases h with
    | nil => simp [isPre] at hp
    | cons b bs =>
      simp only [isPre, Bool.and_eq_true, beq_iff_eq] at hp
      intro c hc
      rcases List.mem_cons.mp hc with rfl | hc
      · exact hp.1 ▸ List.mem_cons_self _ _
      · exact List.mem_cons_of_mem _ (ih hp.2 c hc)

theorem hasSub_subset {h n : List Char} (hs : hasSub h n = true) :
    ∀ c ∈ n, c ∈ h := by
  induction h with
  | nil =>
    cases n with
    | nil => intro c hc; cases hc
    | cons a as => simp [hasSub, isPre] at hs
  | cons b bs ih =>
    simp only [hasSub, Bool.or_eq_true] at hs
    rcases hs with hs | hs
    · exact isPre_subset hs
    · intro c hc; exact List.mem_cons_of_mem _ (ih hs c hc)

theorem hasSub_eq_false {h n : List Char} {c : Char} (hc : c ∈ n) (hh : c ∉ h) :
    hasSub h n = false := by
  cases he : hasSub h n with
  | false => rfl
  | true => exact absurd (hasSub_subset he c hc) hh

theorem isPre_append {n h : List Char} (hp : isPre n h = true) (r : List Char) :
    isPre n (h ++ r) = true := by
  induction n generalizing h with
  | nil => rfl
  | cons a as ih =>
    cases h with
    | nil => simp [isPre] at hp
    | cons b bs =>
      simp only [isPre, Bool.and_eq_true, beq_iff_eq] at hp ⊢
      exact ⟨hp.1, ih hp.2⟩

theorem hasSub_append {h n : List Char} (hs : hasSub h n = true) (r : List Char) :
    hasSub (h ++ r) n = true := by
  induction h with
  | nil =>
    cases n with
    | nil => cases r with
      | nil => rfl
      | cons x xs => simp [hasSub, isPre]
    | cons a as => simp [hasSub, isPre] at hs
  | cons b bs ih =>
    simp only [hasSub, Bool.or_eq_true] at hs ⊢
    rcases hs with hs | hs
    · exact Or.inl (isPre_append hs r)
    · exact Or.inr (ih hs)

theorem digitChar_mem_digits :
    ∀ m < 10, Nat.digitChar m ∈ ['0','1','2','3','4','5','6','7','8','9'] := by
  decide

theorem toDigitsCore_subset (f : Nat) :
    ∀ (n : Nat) (ds : List Char), ∀ c ∈ Nat.toDigitsCore 10 f n ds,
      c ∈ ds ∨ c ∈ ['0','1','2','3','4','5','6','7','8','9'] := by
  induction f with
  | zero => intro n ds c hc; exact Or.inl hc
  | succ f ih =>
    intro n ds c hc
    simp only [Nat.toDigitsCore] at hc
    split at hc
    · rcases List.mem_cons.mp hc with rfl | hc
      · exact Or.inr (digitChar_mem_digits _ (Nat.mod_lt _ (by omega)))
      · exact Or.inl hc
    · rcases ih _ _ c hc with hc | hc
      · rcases List.mem_cons.mp hc with rfl | hc
        · exact Or.inr (digitChar_mem_digits _ (Nat.mod_lt _ (by omega)))
        · exact Or.inl hc
      · exact Or.inr hc

theorem toString_nat_chars (n : Nat) :
    ∀ c ∈ (toString n).toList, c ∈ ['0','1','2','3','4','5','6','7','8','9'] := by
  intro c hc
  have hc' : c ∈ Nat.toDigitsCore 10 (n + 1) n [] := hc
  rcases toDigitsCore_subset (n + 1) n [] c hc' with h | h
  · cases h
  · exact h

/-- The `FileNotFoundError` message raised by `extract_text_from_pdf`
matches the permanent-failure pattern `文件不存在` for every path. -/
theorem isPermanentError_fileNotFound (p : String) :
    isPermanentError ("PDF文件不存在: " ++ p) = true := by
  unfold isPermanentError strContains
  rw [string_toList_append]
  have h1 : hasSub ("PDF文件不存在: ").toList "文件不存在".toList = true := by decide
  rw [hasSub_append h1 p.toList]
  rfl

/-- The `文档 {id} 不存在` message matches neither permanent-failure pattern,
whatever the numeric id renders to. -/
theorem isPermanentError_docMissing (n : Nat) :
    isPermanentError ("文档 " ++ toString n ++ " 不存在") = false := by
  have hA : ¬ ('件' ∈ ("文档 " ++ toString n ++ " 不存在").toList) := by
    rw [string_toList_append, string_toList_append]
    intro hc
    rcases List.mem_append.mp hc with hc | hc
    · rcases List.mem_append.mp hc with hc | hc
      · revert hc; decide
      · have := toString_nat_chars n '件' hc
        revert this; decide
    · revert hc; decide
  have hB : ¬ ('无' ∈ ("文档 " ++ toString n ++ " 不存在").toList) := by
    rw [string_toList_append, string_toList_append]
    intro hc
    rcases List.mem_append.mp hc with hc | hc
    · rcases List.mem_append.mp hc with hc | hc
      · revert hc; decide
      · have := toString_nat_chars n '无' hc
        revert this; decide
    · revert hc; decide
  unfold isPermanentError strContains
  rw [hasSub_eq_false (show '件' ∈ "文件不存在".toList by decide) hA,
      hasSub_eq_false (show '无' ∈ "无法读取".toList by decide) hB]
  rfl

/-- One execution from a fresh state (no task row yet) whose extraction
succeeds. -/
theorem task_step_ok (f : String → Except String ExtractResult)
    (iMsg tid : String) (r did : Nat) (d : Document) (res : ExtractResult)
    (hd : d.id = did) (hf : f d.file_path = .ok res) :
    extract_pdf_text_task f iMsg tid r did ⟨[d], []⟩ =
      (⟨[completedDoc d res], [successTask tid did res]⟩,
       .success did res.text_length res.page_count) := by
  simp [extract_pdf_text_task, hasTaskId, findDoc, findTask, updateDoc,
        updateTask, updateFirstDoc, updateFirstTask, hd, hf,
        taskFailureHandler, completedDoc, successTask, List.find?]

/-- One execution from a fresh state whose extraction raises `e`. -/
theorem task_step_err (f : String → Except String ExtractResult)
    (iMsg tid : String) (r did : Nat) (d : Document) (e : String)
    (hd : d.id = did) (hf : f d.file_path = .error e) :
    extract_pdf_text_task f iMsg tid r did ⟨[d], []⟩ =
      (⟨[failedDoc d e], [failedTask tid did e]⟩, classifyOutcome r e) := by
  simp [extract_pdf_text_task, hasTaskId, findDoc, findTask, updateDoc,
        updateTask, updateFirstDoc, updateFirstTask, hd, hf,
        taskFailureHandler, failedDoc, failedTask, classifyOutcome,
        List.find?]
  split_ifs <;> rfl

/-- One execution when the task id is already present (every retried
execution): the insert violates the unique constraint and the handler runs
with the integrity-error message. -/
theorem task_step_dup (f : String → Except String ExtractResult)
    (iMsg tid : String) (r did : Nat) (d : Document) (t : ProcessingTask)
    (hd : d.id = did) (ht : t.task_id = tid) :
    extract_pdf_text_task f iMsg tid r did ⟨[d], [t]⟩ =
      (⟨[failedDoc d iMsg],
        [{ t with
            status := "failure",
            error_message := some iMsg }]⟩,
       classifyOutcome r iMsg) := by
  simp [extract_pdf_text_task, hasTaskId, findDoc, findTask, updateDoc,
        updateTask, updateFirstDoc, updateFirstTask, hd, ht,
        taskFailureHandler, failedDoc, classifyOutcome, List.find?, List.any]
  split_ifs <;> rfl

/-- One execution from a fresh state whose document id matches no document
row. -/
theorem task_step_nodoc (f : String → Except String ExtractResult)
    (iMsg tid : String) (r did : Nat) (docs : List Document)
    (hnd : docs.find? (fun d => d.id == did) = none) :
    extract_pdf_text_task f iMsg tid r did ⟨docs, []⟩ =
      (⟨docs, [failedTask tid did ("文档 " ++ toString did ++ " 不存在")]⟩,
       classifyOutcome r ("文档 " ++ toString did ++ " 不存在")) := by
  simp [extract_pdf_text_task, hasTaskId, findDoc, findTask, updateDoc,
        updateTask, updateFirstDoc, updateFirstTask, hnd,
        taskFailureHandler, failedTask, classifyOutcome, List.find?]
  split_ifs <;> rfl

theorem retryChain_step (f : String → Except String ExtractResult)
    (iMsg tid : String) (did fuel r : Nat) (db : DB) :
    retryChain f iMsg tid did (fuel + 1) r db =
      match extract_pdf_text_task f iMsg tid r did db with
      | (db1, .success _ _ _) => (db1, [], .ok)
      | (db1, .fail m) => (db1, [], .err m)
      | (db1, .retry dl _) =>
        let rr := retryChain f iMsg tid did fuel (r + 1) db1
        (rr.1, dl :: rr.2.1, rr.2.2) := rfl

theorem failedDoc_id (d : Document) (e : String) : (failedDoc d e).id = d.id := rfl

theorem failedTask_task_id (tid : String) (did : Nat) (e : String) :
    (failedTask tid did e).task_id = tid := rfl

theorem failedDoc_failedDoc (d : Document) (e m : String) :
    failedDoc (failedDoc d e) m = failedDoc d m := rfl

theorem failedTask_fail_update (tid : String) (did : Nat) (e m : String) :
    ({ failedTask tid did e with
        status := "failure",
        error_message := some m }) = failedTask tid did m := rfl

/-- A chain whose first execution succeeds: one attempt, no delays. -/
theorem chain_ok (f : String → Except String ExtractResult)
    (iMsg tid : String) (r did : Nat) (d : Document) (res : ExtractResult)
    (hd : d.id = did) (hf : f d.file_path = .ok res)
    (fuel : Nat) (hfuel : 1 ≤ fuel) :
    retryChain f iMsg tid did fuel r ⟨[d], []⟩ =
      (⟨[completedDoc d res], [successTask tid did res]⟩, [], .ok) := by
  obtain ⟨k, rfl⟩ : ∃ k, fuel = k + 1 := ⟨fuel - 1, by omega⟩
  rw [retryChain_step, task_step_ok f iMsg tid r did d res hd hf]

/-- A chain whose first execution raises a permanent error: one attempt,
no delays, terminal failure. -/
theorem chain_perm (f : String → Except String ExtractResult)
    (iMsg tid : String) (r did : Nat) (d : Document) (e : String)
    (hd : d.id = did) (hf : f d.file_path = .error e)
    (hperm : isPermanentError e = true)
    (fuel : Nat) (hfuel : 1 ≤ fuel) :
    retryChain f iMsg tid did fuel r ⟨[d], []⟩ =
      (⟨[failedDoc d e], [failedTask tid did e]⟩, [], .err e) := by
  obtain ⟨k, rfl⟩ : ∃ k, fuel = k + 1 := ⟨fuel - 1, by omega⟩
  rw [retryChain_step, task_step_err f iMsg tid r did d e hd hf]
  simp [classifyOutcome, hperm]

/-- A chain step whose execution decides to retry. -/
theorem retryChain_retry (f : String → Except String ExtractResult)
    (iMsg tid : String) (r did : Nat) (db db1 : DB) (dl : Nat) (m : String)
    (hstep : extract_pdf_text_task f iMsg tid r did db = (db1, .retry dl m))
    (fuel : Nat) :
    retryChain f iMsg tid did (fuel + 1) r db =
      ((retryChain f iMsg tid did fuel (r + 1) db1).1,
       dl :: (retryChain f iMsg tid did fuel (r + 1) db1).2.1,
       (retryChain f iMsg tid did fuel (r + 1) db1).2.2) := by
  rw [retryChain_step, hstep]

/-- A chain step whose execution fails terminally. -/
theorem retryChain_fail (f : String → Except String ExtractResult)
    (iMsg tid : String) (r did : Nat) (db db1 : DB) (m : String)
    (hstep : extract_pdf_text_task f iMsg tid r did db = (db1, .fail m))
    (fuel : Nat) :
    retryChain f iMsg tid did (fuel + 1) r db = (db1, [], .err m) := by
  rw [retryChain_step, hstep]

/-- A chain step whose execution succeeds. -/
theorem retryChain_success (f : String → Except String ExtractResult)
    (iMsg tid : String) (r did a b c : Nat) (db db1 : DB)
    (hstep : extract_pdf_text_task f iMsg tid r did db = (db1, .success a b c))
    (fuel : Nat) :
    retryChain f iMsg tid did (fuel + 1) r db = (db1, [], .ok) := by
  rw [retryChain_step, hstep]

/-- A chain whose first execution raises a transient error, with a transient
integrity-error message: four attempts, delays 60/120/180, terminal failure
carrying the integrity-error message. -/
theorem chain_transient (f : String → Except String ExtractResult)
    (iMsg tid : String) (did : Nat) (d : Document) (e : String)
    (hd : d.id = did) (hf : f d.file_path = .error e)
    (hperm : isPermanentError e = false)
    (hi : isPermanentError iMsg = false)
    (fuel : Nat) (hfuel : 4 ≤ fuel) :
    retryChain f iMsg tid did fuel 0 (DB.mk [d] []) =
      (DB.mk [failedDoc d iMsg] [failedTask tid did iMsg],
       [60, 120, 180], .err iMsg) := by
  obtain ⟨k, rfl⟩ : ∃ k, fuel = k + 1 + 1 + 1 + 1 := ⟨fuel - 4, by omega⟩
  have h1 : extract_pdf_text_task f iMsg tid 0 did (DB.mk [d] []) =
      (DB.mk [failedDoc d e] [failedTask tid did e], .retry 60 e) := by
    rw [task_step_err f iMsg tid 0 did d e hd hf]
    simp [classifyOutcome, hperm]
  have h2 : extract_pdf_text_task f iMsg tid (0 + 1) did
      (DB.mk [failedDoc d e] [failedTask tid did e]) =
      (DB.mk [failedDoc d iMsg] [failedTask tid did iMsg], .retry 120 iMsg) := by
    rw [task_step_dup f iMsg tid (0 + 1) did (failedDoc d e) (failedTask tid did e)
        (by rw [failedDoc_id]; exact hd) (failedTask_task_id tid did e)]
    rw [failedDoc_failedDoc, failedTask_fail_update]
    simp [classifyOutcome, hi]
  have h3 : extract_pdf_text_task f iMsg tid (0 + 1 + 1) did
      (DB.mk [failedDoc d iMsg] [failedTask tid did iMsg]) =
      (DB.mk [failedDoc d iMsg] [failedTask tid did iMsg], .retry 180 iMsg) := by
    rw [task_step_dup f iMsg tid (0 + 1 + 1) did (failedDoc d iMsg) (failedTask tid did iMsg)
        (by rw [failedDoc_id]; exact hd) (failedTask_task_id tid did iMsg)]
    rw [failedDoc_failedDoc, failedTask_fail_update]
    simp [classifyOutcome, hi]
  have h4 : extract_pdf_text_task f iMsg tid (0 + 1 + 1 + 1) did
      (DB.mk [failedDoc d iMsg] [failedTask tid did iMsg]) =
      (DB.mk [failedDoc d iMsg] [failedTask tid did iMsg], .fail iMsg) := by
    rw [task_step_dup f iMsg tid (0 + 1 + 1 + 1) did (failedDoc d iMsg) (failedTask tid did iMsg)
        (by rw [failedDoc_id]; exact hd) (failedTask_task_id tid did iMsg)]
    rw [failedDoc_failedDoc, failedTask_fail_update]
    simp [classifyOutcome, hi]
  rw [retryChain_retry f iMsg tid 0 did _ _ 60 e h1 (k + 1 + 1 + 1)]
  rw [retryChain_retry f iMsg tid (0 + 1) did _ _ 120 iMsg h2 (k + 1 + 1)]
  rw [retryChain_retry f iMsg tid (0 + 1 + 1) did _ _ 180 iMsg h3 (k + 1)]
  rw [retryChain_fail f iMsg tid (0 + 1 + 1 + 1) did _ _ iMsg h4 k]

/-- One execution when the task id is already present and no document row
matches: the handler only updates the task row. -/
theorem task_step_dup_nodoc (f : String → Except String ExtractResult)
    (iMsg tid : String) (r did : Nat) (docs : List Document) (t : ProcessingTask)
    (hnd : docs.find? (fun d => d.id == did) = none) (ht : t.task_id = tid) :
    extract_pdf_text_task f iMsg tid r did ⟨docs, [t]⟩ =
      (⟨docs,
        [{ t with
            status := "failure",
            error_message := some iMsg }]⟩,
       classifyOutcome r iMsg) := by
  simp [extract_pdf_text_task, hasTaskId, findDoc, findTask, updateDoc,
        updateTask, updateFirstDoc, updateFirstTask, hnd, ht,
        taskFailureHandler, classifyOutcome, List.find?, List.any]
  split_ifs <;> rfl

/-- A chain whose first execution raises a transient error while the
integrity-error message happens to match a permanent pattern: two attempts,
one recorded delay, terminal failure. -/
theorem chain_transient_permInteg (f : String → Except String ExtractResult)
    (iMsg tid : String) (did : Nat) (d : Document) (e : String)
    (hd : d.id = did) (hf : f d.file_path = .error e)
    (hperm : isPermanentError e = false)
    (hi : isPermanentError iMsg = true)
    (fuel : Nat) (hfuel : 2 ≤ fuel) :
    retryChain f iMsg tid did fuel 0 (DB.mk [d] []) =
      (DB.mk [failedDoc d iMsg] [failedTask tid did iMsg],
       [60], .err iMsg) := by
  obtain ⟨k, rfl⟩ : ∃ k, fuel = k + 1 + 1 := ⟨fuel - 2, by omega⟩
  have h1 : extract_pdf_text_task f iMsg tid 0 did (DB.mk [d] []) =
      (DB.mk [failedDoc d e] [failedTask tid did e], .retry 60 e) := by
    rw [task_step_err f iMsg tid 0 did d e hd hf]
    simp [classifyOutcome, hperm]
  have h2 : extract_pdf_text_task f iMsg tid (0 + 1) did
      (DB.mk [failedDoc d e] [failedTask tid did e]) =
      (DB.mk [failedDoc d iMsg] [failedTask tid did iMsg], .fail iMsg) := by
    rw [task_step_dup f iMsg tid (0 + 1) did (failedDoc d e) (failedTask tid did e)
        (by rw [failedDoc_id]; exact hd) (failedTask_task_id tid did e)]
    rw [failedDoc_failedDoc, failedTask_fail_update]
    simp [classifyOutcome, hi]
  rw [retryChain_retry f iMsg tid 0 did _ _ 60 e h1 (k + 1)]
  rw [retryChain_fail f iMsg tid (0 + 1) did _ _ iMsg h2 k]

/-- A chain for a document id matching no document row, with a transient
integrity-error message: four attempts, delays 60/120/180, terminal
failure; no document row is ever touched. -/
theorem chain_nodoc (f : String → Except String ExtractResult)
    (iMsg tid : String) (did : Nat) (docs : List Document)
    (hnd : docs.find? (fun d => d.id == did) = none)
    (hi : isPermanentError iMsg = false)
    (fuel : Nat) (hfuel : 4 ≤ fuel) :
    retryChain f iMsg tid did fuel 0 (DB.mk docs []) =
      (DB.mk docs [failedTask tid did iMsg],
       [60, 120, 180], .err iMsg) := by
  obtain ⟨k, rfl⟩ : ∃ k, fuel = k + 1 + 1 + 1 + 1 := ⟨fuel - 4, by omega⟩
  have h1 : extract_pdf_text_task f iMsg tid 0 did (DB.mk docs []) =
      (DB.mk docs [failedTask tid did ("文档 " ++ toString did ++ " 不存在")],
       .retry 60 ("文档 " ++ toString did ++ " 不存在")) := by
    rw [task_step_nodoc f iMsg tid 0 did docs hnd]
    simp [classifyOutcome, isPermanentError_docMissing]
  have h2 : extract_pdf_text_task f iMsg tid (0 + 1) did
      (DB.mk docs [failedTask tid did ("文档 " ++ toString did ++ " 不存在")]) =
      (DB.mk docs [failedTask tid did iMsg], .retry 120 iMsg) := by
    rw [task_step_dup_nodoc f iMsg tid (0 + 1) did docs
        (failedTask tid did ("文档 " ++ toString did ++ " 不存在")) hnd
        (failedTask_task_id tid did ("文档 " ++ toString did ++ " 不存在"))]
    rw [failedTask_fail_update]
    simp [classifyOutcome, hi]
  have h3 : extract_pdf_text_task f iMsg tid (0 + 1 + 1) did
      (DB.mk docs [failedTask tid did iMsg]) =
      (DB.mk docs [failedTask tid did iMsg], .retry 180 iMsg) := by
    rw [task_step_dup_nodoc f iMsg tid (0 + 1 + 1) did docs
        (failedTask tid did iMsg) hnd (failedTask_task_id tid did iMsg)]
    rw [failedTask_fail_update]
    simp [classifyOutcome, hi]
  have h4 : extract_pdf_text_task f iMsg tid (0 + 1 + 1 + 1) did
      (DB.mk docs [failedTask tid did iMsg]) =
      (DB.mk docs [failedTask tid did iMsg], .fail iMsg) := by
    rw [task_step_dup_nodoc f iMsg tid (0 + 1 + 1 + 1) did docs
        (failedTask tid did iMsg) hnd (failedTask_task_id tid did iMsg)]
    rw [failedTask_fail_update]
    simp [classifyOutcome, hi]
  rw [retryChain_retry f iMsg tid 0 did _ _ 60 _ h1 (k + 1 + 1 + 1)]
  rw [retryChain_retry f iMsg tid (0 + 1) did _ _ 120 iMsg h2 (k + 1 + 1)]
  rw [retryChain_retry f iMsg tid (0 + 1 + 1) did _ _ 180 iMsg h3 (k + 1)]
  rw [retryChain_fail f iMsg tid (0 + 1 + 1 + 1) did _ _ iMsg h4 k]

/-! ## Claim theorems -/

/-- C1 (counterexample): at a concrete transient failure with
`retry_count = 0 < 3` the worker requeues (outcome `retry 60`) **but** the
document row is already marked `failed` and the task row `failure` —
refuting the claim that during a requeue the Document stays
`processing`/`pending` and the Job is not `failure`. -/
theorem C1_counterexample :
    (extract_pdf_text_task alwaysParseError integMsg "tid-c1" 0 1
        ⟨[sampleDoc], []⟩).2 = .retry 60 "解析失败" ∧
    (findDoc (extract_pdf_text_task alwaysParseError integMsg "tid-c1" 0 1
        ⟨[sampleDoc], []⟩).1 1).map (fun dd => dd.extraction_status) =
      some "failed" ∧
    (findTask (extract_pdf_text_task alwaysParseError integMsg "tid-c1" 0 1
        ⟨[sampleDoc], []⟩).1 "tid-c1").map (fun t => t.status) =
      some "failure" := by
  decide

/-- C1 (amended): on a transient extraction failure with `retry_count < 3`
the worker requeues with delay `60 * (retry_count + 1)`, but before doing so
it commits the Document as `failed` (with the error message) and the Job as
`failure` — the failure is visible on both records during the requeue. -/
theorem C1_amended_requeue_marks_failed
    (f : String → Except String ExtractResult) (iMsg tid : String)
    (r did : Nat) (d : Document) (e : String)
    (hd : d.id = did) (hf : f d.file_path = .error e)
    (hperm : isPermanentError e = false) (hr : r < 3) :
    extract_pdf_text_task f iMsg tid r did ⟨[d], []⟩ =
      (⟨[failedDoc d e], [failedTask tid did e]⟩, .retry (60 * (r + 1)) e) := by
  rw [task_step_err f iMsg tid r did d e hd hf]
  simp [classifyOutcome, hperm, hr]

/-- Witness for C1 (amended) at a concrete input. -/
theorem C1_witness :
    sampleDoc.id = 1 ∧ alwaysParseError sampleDoc.file_path = .error "解析失败" ∧
    isPermanentError "解析失败" = false ∧ 0 < 3 ∧
    extract_pdf_text_task alwaysParseError integMsg "tid-w1" 0 1
        ⟨[sampleDoc], []⟩ =
      (⟨[failedDoc sampleDoc "解析失败"], [failedTask "tid-w1" 1 "解析失败"]⟩,
       .retry 60 "解析失败") :=
  ⟨rfl, rfl, by decide, by decide,
   C1_amended_requeue_marks_failed alwaysParseError integMsg "tid-w1" 0 1
     sampleDoc "解析失败" rfl rfl (by decide) (by decide)⟩

/-- C3 (code evaluated at the failing input): a retried execution
(`retries = 1`, same Celery task id) against the state left by the first
attempt does **not** insert a new Job record — the insert violates the
unique constraint on `task_id`, the execution fails with the integrity
error and is requeued, and the single existing task row is merely
overwritten. -/
theorem C3_retry_insert_violates_unique :
    extract_pdf_text_task alwaysParseError integMsg "tid-c3" 1 1
        ⟨[failedDoc sampleDoc "解析失败"], [failedTask "tid-c3" 1 "解析失败"]⟩ =
      (⟨[failedDoc sampleDoc integMsg], [failedTask "tid-c3" 1 integMsg]⟩,
       .retry 120 integMsg) ∧
    (extract_pdf_text_task alwaysParseError integMsg "tid-c3" 1 1
        ⟨[failedDoc sampleDoc "解析失败"], [failedTask "tid-c3" 1 "解析失败"]⟩).1.tasks.length
      = 1 := by
  decide

/-- C4 (counterexample): with an always-transient extraction the chain does
record delays 60/120/180 (four executions), but already after the *first*
execution — while three retries are still pending — the document row is
marked `failed`, refuting "attempted exactly 4 times ... before the
document is marked 'failed'". -/
theorem C4_counterexample :
    (retryChain alwaysParseError integMsg "tid-c4" 1 6 0 ⟨[sampleDoc], []⟩).2.1 =
      [60, 120, 180] ∧
    (extract_pdf_text_task alwaysParseError integMsg "tid-c4" 0 1
        ⟨[sampleDoc], []⟩).2 = .retry 60 "解析失败" ∧
    (findDoc (extract_pdf_text_task alwaysParseError integMsg "tid-c4" 0 1
        ⟨[sampleDoc], []⟩).1 1).map (fun dd => dd.extraction_status) =
      some "failed" := by
  decide

/-- C4 (amended): a document whose extraction always raises a transient
error is executed exactly 4 times (initial + 3 retries, hence 3 recorded
delays) with requeue delays exactly 60, 120 and 180 seconds before the
terminal failure; the document is already marked `failed` after the first
failing attempt (not only at exhaustion), and the retried executions fail
at the Job-record insert, so the terminal message is the integrity error. -/
theorem C4_amended_retry_cap
    (f : String → Except String ExtractResult) (iMsg tid : String)
    (did : Nat) (d : Document) (e : String) (fuel : Nat)
    (hd : d.id = did) (hf : f d.file_path = .error e)
    (hperm : isPermanentError e = false)
    (hi : isPermanentError iMsg = false) (hfuel : 4 ≤ fuel) :
    retryChain f iMsg tid did fuel 0 ⟨[d], []⟩ =
      (⟨[failedDoc d iMsg], [failedTask tid did iMsg]⟩,
       [60, 120, 180], .err iMsg) ∧
    findDoc (extract_pdf_text_task f iMsg tid 0 did ⟨[d], []⟩).1 did =
      some (failedDoc d e) := by
  constructor
  · exact chain_transient f iMsg tid did d e hd hf hperm hi fuel hfuel
  · rw [task_step_err f iMsg tid 0 did d e hd hf]
    simp [findDoc, List.find?, failedDoc, hd]

/-- Witness for C4 (amended) at a concrete input. -/
theorem C4_witness :
    sampleDoc.id = 1 ∧ alwaysParseError sampleDoc.file_path = .error "解析失败" ∧
    isPermanentError "解析失败" = false ∧ isPermanentError integMsg = false ∧
    (4 : Nat) ≤ 6 ∧
    (retryChain alwaysParseError integMsg "tid-w4" 1 6 0 ⟨[sampleDoc], []⟩ =
      (⟨[failedDoc sampleDoc integMsg], [failedTask "tid-w4" 1 integMsg]⟩,
       [60, 120, 180], .err integMsg) ∧
     findDoc (extract_pdf_text_task alwaysParseError integMsg "tid-w4" 0 1
        ⟨[sampleDoc], []⟩).1 1 = some (failedDoc sampleDoc "解析失败")) :=
  ⟨rfl, rfl, by decide, by decide, by decide,
   C4_amended_retry_cap alwaysParseError integMsg "tid-w4" 1 sampleDoc
     "解析失败" 6 rfl rfl (by decide) (by decide) (by decide)⟩

theorem completedDoc_id (d : Document) (res : ExtractResult) :
    (completedDoc d res).id = d.id := rfl

theorem successTask_document_id (tid : String) (did : Nat) (res : ExtractResult) :
    (successTask tid did res).document_id = did := rfl

theorem failedTask_document_id (tid : String) (did : Nat) (e : String) :
    (failedTask tid did e).document_id = did := rfl

/-- Row lookups in a one-document, one-task database. -/
theorem findLatest_pair (d : Document) (t : ProcessingTask) (did : Nat)
    (hd : d.id = did) (ht : t.document_id = did) :
    findDoc ⟨[d], [t]⟩ did = some d ∧ latestTaskFor ⟨[d], [t]⟩ did = some t := by
  constructor
  · simp [findDoc, List.find?, hd]
  · simp [latestTaskFor, List.filter, ht]

/-- C2: after a full retry chain reaches any terminal outcome, the document
row and the latest task row agree — success commits `completed` with the
text fields populated together with the task's `success` result, and a
terminal failure leaves the document `failed` and the task `failure`
carrying the same message; the chain never runs out of fuel. -/
theorem C2_terminal_consistency
    (f : String → Except String ExtractResult) (iMsg tid : String)
    (did : Nat) (d : Document) (fuel : Nat)
    (hd : d.id = did) (hfuel : 4 ≤ fuel) :
    terminalAgreement f iMsg tid did d fuel := by
  unfold terminalAgreement
  cases hfe : f d.file_path with
  | ok res =>
    rw [chain_ok f iMsg tid 0 did d res hd hfe fuel (by omega)]
    have hpair := findLatest_pair (completedDoc d res) (successTask tid did res)
      did (by rw [completedDoc_id]; exact hd) (successTask_document_id tid did res)
    refine ⟨fun _ => ⟨res, rfl, hpair.1, hpair.2⟩, fun m hm => ?_, by simp⟩
    exact absurd hm (by simp)
  | error e =>
    cases hpe : isPermanentError e with
    | true =>
      rw [chain_perm f iMsg tid 0 did d e hd hfe hpe fuel (by omega)]
      have hpair := findLatest_pair (failedDoc d e) (failedTask tid did e)
        did (by rw [failedDoc_id]; exact hd) (failedTask_document_id tid did e)
      refine ⟨fun hok => absurd hok (by simp), fun m hm => ?_, by simp⟩
      injection hm with hm'
      subst hm'
      exact hpair
    | false =>
      cases hpi : isPermanentError iMsg with
      | true =>
        rw [chain_transient_permInteg f iMsg tid did d e hd hfe hpe hpi fuel
            (by omega)]
        have hpair := findLatest_pair (failedDoc d iMsg) (failedTask tid did iMsg)
          did (by rw [failedDoc_id]; exact hd) (failedTask_document_id tid did iMsg)
        refine ⟨fun hok => absurd hok (by simp), fun m hm => ?_, by simp⟩
        injection hm with hm'
        subst hm'
        exact hpair
      | false =>
        rw [chain_transient f iMsg tid did d e hd hfe hpe hpi fuel (by omega)]
        have hpair := findLatest_pair (failedDoc d iMsg) (failedTask tid did iMsg)
          did (by rw [failedDoc_id]; exact hd) (failedTask_document_id tid did iMsg)
        refine ⟨fun hok => absurd hok (by simp), fun m hm => ?_, by simp⟩
        injection hm with hm'
        subst hm'
        exact hpair

/-- Witness for C2 at a concrete input. -/
theorem C2_witness :
    sampleDoc.id = 1 ∧ (4 : Nat) ≤ 6 ∧
    terminalAgreement alwaysParseError integMsg "tid-w2" 1 sampleDoc 6 :=
  ⟨rfl, by decide,
   C2_terminal_consistency alwaysParseError integMsg "tid-w2" 1 sampleDoc 6
     rfl (by decide)⟩

/-- C5: for every readable input the selector runs the primary extractor
first; above the quality threshold it returns the primary text (and the
secondary extractor's behaviour is irrelevant to the result); otherwise it
runs the secondary and returns the strictly longer text, ties going to the
primary. -/
theorem C5_strategy_selection (env : PdfEnv) (p : String)
    (h : env.pathExists p = true) : selectorSpec env p := by
  unfold selectorSpec
  constructor
  · intro hq
    constructor
    · simp [extract_text_from_pdf, h, hq]
    · intro g
      have hq' := hq
      simp only [extract_with_pymupdf] at hq'
      simp [extract_text_from_pdf, extract_with_pymupdf, extract_with_pdfplumber,
            h, hq']
  · intro hq
    have hq' : ¬ (100 < (extract_with_pymupdf env p).1.trim.length) :=
      Nat.not_lt.mpr hq
    simp [extract_text_from_pdf, h, hq']

/-- Witness for C5 at a concrete input. -/
theorem C5_witness :
    envShort.pathExists "/data/b.pdf" = true ∧
    selectorSpec envShort "/data/b.pdf" :=
  ⟨rfl, C5_strategy_selection envShort "/data/b.pdf" rfl⟩

/-- C6: a missing source file raises the permanent `FileNotFoundError`
pattern, so the chain performs exactly one execution (no recorded delays),
marks the document `failed` immediately and never requeues. -/
theorem C6_missing_file_permanent (env : PdfEnv) (iMsg tid : String)
    (did : Nat) (d : Document) (fuel : Nat)
    (hd : d.id = did) (hex : env.pathExists d.file_path = false)
    (hfuel : 1 ≤ fuel) :
    extract_text_from_pdf env d.file_path =
      .error ("PDF文件不存在: " ++ d.file_path) ∧
    retryChain (extract_text_from_pdf env) iMsg tid did fuel 0 ⟨[d], []⟩ =
      (⟨[failedDoc d ("PDF文件不存在: " ++ d.file_path)],
        [failedTask tid did ("PDF文件不存在: " ++ d.file_path)]⟩,
       [], .err ("PDF文件不存在: " ++ d.file_path)) := by
  have hf : extract_text_from_pdf env d.file_path =
      .error ("PDF文件不存在: " ++ d.file_path) := by
    simp [extract_text_from_pdf, hex]
  exact ⟨hf, chain_perm (extract_text_from_pdf env) iMsg tid 0 did d _ hd hf
    (isPermanentError_fileNotFound d.file_path) fuel hfuel⟩

/-- Witness for C6 at a concrete input. -/
theorem C6_witness :
    sampleDoc.id = 1 ∧ envMissing.pathExists sampleDoc.file_path = false ∧
    (1 : Nat) ≤ 6 ∧
    (extract_text_from_pdf envMissing sampleDoc.file_path =
      .error ("PDF文件不存在: " ++ sampleDoc.file_path) ∧
    retryChain (extract_text_from_pdf envMissing) integMsg "tid-w6" 1 6 0
        ⟨[sampleDoc], []⟩ =
      (⟨[failedDoc sampleDoc ("PDF文件不存在: " ++ sampleDoc.file_path)],
        [failedTask "tid-w6" 1 ("PDF文件不存在: " ++ sampleDoc.file_path)]⟩,
       [], .err ("PDF文件不存在: " ++ sampleDoc.file_path))) :=
  ⟨rfl, rfl, by decide,
   C6_missing_file_permanent envMissing integMsg "tid-w6" 1 sampleDoc 6
     rfl rfl (by decide)⟩

/-- C7: the selector is total on existing paths — it returns a result
dictionary and only ever errors (with the `FileNotFoundError` message) on a
path that does not exist, because each extractor's internal exception is
converted to the empty result. -/
theorem C7_selector_totality (env : PdfEnv) (p : String) :
    selectorTotal env p := by
  unfold selectorTotal
  refine ⟨?_, ?_, ?_, ?_⟩
  · intro h
    simp only [extract_text_from_pdf, h]
    split_ifs <;> simp_all
  · intro e he
    cases hv : env.pathExists p with
    | true =>
      exfalso
      simp [extract_text_from_pdf, hv] at he
      split_ifs at he
    | false =>
      simp [extract_text_from_pdf, hv] at he
      exact ⟨rfl, he.symm⟩
  · intro m hm
    simp [extract_with_pymupdf, hm]
  · intro m hm
    simp [extract_with_pdfplumber, hm]

/-- Witness for C7 at a concrete input. -/
theorem C7_witness : selectorTotal envShort "/data/b.pdf" ∧
    selectorTotal envMissing "/data/b.pdf" :=
  ⟨C7_selector_totality envShort "/data/b.pdf",
   C7_selector_totality envMissing "/data/b.pdf"⟩

/-- C8: the selector always stores `text_length = len(text)` of the text it
returns, and after a chain run with the real selector any document row in
`completed` state stores a text whose exact character count is
`text_length`. -/
theorem C8_text_length_exact (env : PdfEnv) (iMsg tid : String)
    (did : Nat) (d : Document) (fuel : Nat)
    (hd : d.id = did) (hfuel : 4 ≤ fuel) :
    textLengthSpec env iMsg tid did d fuel := by
  unfold textLengthSpec
  have hlen : ∀ r, extract_text_from_pdf env d.file_path = .ok r →
      r.text_length = r.text.length := by
    intro r hr
    simp only [extract_text_from_pdf] at hr
    split_ifs at hr <;> cases hr <;> rfl
  refine ⟨hlen, ?_⟩
  intro dd hdd hcomp
  cases hfe : extract_text_from_pdf env d.file_path with
  | ok res =>
    rw [chain_ok (extract_text_from_pdf env) iMsg tid 0 did d res hd hfe fuel
        (by omega)] at hdd
    have : findDoc ⟨[completedDoc d res], [successTask tid did res]⟩ did =
        some (completedDoc d res) := by
      simp [findDoc, List.find?, completedDoc_id, hd]
    rw [this] at hdd
    cases hdd
    exact ⟨res.text, rfl, (hlen res hfe).symm ▸ rfl⟩
  | error e =>
    exfalso
    cases hpe : isPermanentError e with
    | true =>
      rw [chain_perm (extract_text_from_pdf env) iMsg tid 0 did d e hd hfe hpe
          fuel (by omega)] at hdd
      have : findDoc ⟨[failedDoc d e], [failedTask tid did e]⟩ did =
          some (failedDoc d e) := by
        simp [findDoc, List.find?, failedDoc_id, hd]
      rw [this] at hdd
      cases hdd
      simp [failedDoc] at hcomp
    | false =>
      cases hpi : isPermanentError iMsg with
      | true =>
        rw [chain_transient_permInteg (extract_text_from_pdf env) iMsg tid did
            d e hd hfe hpe hpi fuel (by omega)] at hdd
        have : findDoc ⟨[failedDoc d iMsg], [failedTask tid did iMsg]⟩ did =
            some (failedDoc d iMsg) := by
          simp [findDoc, List.find?, failedDoc_id, hd]
        rw [this] at hdd
        cases hdd
        simp [failedDoc] at hcomp
      | false =>
        rw [chain_transient (extract_text_from_pdf env) iMsg tid did d e hd
            hfe hpe hpi fuel (by omega)] at hdd
        have : findDoc ⟨[failedDoc d iMsg], [failedTask tid did iMsg]⟩ did =
            some (failedDoc d iMsg) := by
          simp [findDoc, List.find?, failedDoc_id, hd]
        rw [this] at hdd
        cases hdd
        simp [failedDoc] at hcomp

/-- Witness for C8 at a concrete input. -/
theorem C8_witness :
    sampleDoc.id = 1 ∧ (4 : Nat) ≤ 6 ∧
    textLengthSpec envShort integMsg "tid-w8" 1 sampleDoc 6 :=
  ⟨rfl, by decide,
   C8_text_length_exact envShort integMsg "tid-w8" 1 sampleDoc 6 rfl
     (by decide)⟩

/-- The fallback detail of `get_document_text` never coincides with the
extraction-failure detail. -/
theorem unknown_ne_failmsg (x : String) :
    "未知状态" ≠ "文本提取失败: " ++ x := by
  intro h
  have h2 : ("未知状态").toList = ("文本提取失败: ").toList ++ x.toList := by
    rw [← string_toList_append, h]
  have h3 := congrArg List.length h2
  rw [List.length_append] at h3
  have e1 : ("未知状态").toList.length = 4 := rfl
  have e2 : ("文本提取失败: ").toList.length = 8 := rfl
  omega

/-- C9: reading a stored document's text fails with a 425 not-ready error
exactly while the status is `pending` or `processing`, fails with the 500
error carrying the stored extraction error exactly while `failed`, and
returns the text with its metadata exactly while `completed`. -/
theorem C9_read_text (db : DB) (did : Nat) (d : Document)
    (h : findDoc db did = some d) : readTextSpec db did d := by
  unfold readTextSpec
  simp only [get_document_text, h]
  by_cases h1 : d.extraction_status = "pending"
  · simp [h1]
  · by_cases h2 : d.extraction_status = "processing"
    · simp [h1, h2]
    · by_cases h3 : d.extraction_status = "failed"
      · simp [h1, h2, h3]
      · by_cases h4 : d.extraction_status = "completed"
        · simp [h1, h2, h3, h4]
        · simp [h1, h2, h3, h4, unknown_ne_failmsg]

/-- Witness for C9 at a concrete input. -/
theorem C9_witness :
    findDoc ⟨[docCompleted], []⟩ 3 = some docCompleted ∧
    readTextSpec ⟨[docCompleted], []⟩ 3 docCompleted :=
  ⟨rfl, C9_read_text ⟨[docCompleted], []⟩ 3 docCompleted rfl⟩

/-- C10: the `文档 {id} 不存在` message raised for a job whose document id
matches no document row contains neither permanent-failure pattern, so the
failure is transient: the task is retried 3 times with delays 60/120/180
before failing terminally (the later executions failing on the duplicate
task id insert). -/
theorem C10_nonexistent_document_transient
    (f : String → Except String ExtractResult) (iMsg tid : String)
    (did : Nat) (docs : List Document) (fuel : Nat)
    (hnd : docs.find? (fun dd => dd.id == did) = none)
    (hi : isPermanentError iMsg = false) (hfuel : 4 ≤ fuel) :
    isPermanentError ("文档 " ++ toString did ++ " 不存在") = false ∧
    retryChain f iMsg tid did fuel 0 ⟨docs, []⟩ =
      (⟨docs, [failedTask tid did iMsg]⟩, [60, 120, 180], .err iMsg) :=
  ⟨isPermanentError_docMissing did,
   chain_nodoc f iMsg tid did docs hnd hi fuel hfuel⟩

/-- Witness for C10 at a concrete input. -/
theorem C10_witness :
    ([] : List Document).find? (fun dd => dd.id == 42) = none ∧
    isPermanentError integMsg = false ∧ (4 : Nat) ≤ 6 ∧
    (isPermanentError ("文档 " ++ toString 42 ++ " 不存在") = false ∧
     retryChain alwaysParseError integMsg "tid-w10" 42 6 0 ⟨[], []⟩ =
       (⟨[], [failedTask "tid-w10" 42 integMsg]⟩, [60, 120, 180],
        .err integMsg)) :=
  ⟨rfl, by decide, by decide,
   C10_nonexistent_document_transient alwaysParseError integMsg "tid-w10" 42
     [] 6 rfl (by decide) (by decide)⟩
